import Mathlib

/-!
Shallow embedding of the `neon-database-crud-app` repository:
`src/routes.ts` (HTTP route dispatcher, validation helpers) and `db.ts`
(query/transaction wrappers).  JavaScript/JSON values are modelled by the
`Json` inductive; JS numbers are modelled by `ℚ` (no claim exercises
floating-point behaviour); exceptions by `Except String`; the Postgres
table `playing_with_neon` by a list of `Item` rows plus a fresh-id counter.
Whether the underlying SQL client raises on a given request is modelled by
an explicit oracle `fail : Option String` (the raised error's message).
-/

/-- A JSON value, as produced by `JSON.parse`.  Numbers are rationals
(every JSON numeric literal denotes one; no claim depends on float
rounding). -/
inductive Json where
  | null : Json
  | bool : Bool → Json
  | num : ℚ → Json
  | str : String → Json
  | arr : List Json → Json
  | obj : List (String × Json) → Json

/-- A row of the `playing_with_neon` table (the `Item` type of `routes.ts`). -/
structure Item where
  id : Int
  name : String
  value : ℚ
deriving DecidableEq

/-- The storage state: the rows of `playing_with_neon` plus the
sequence counter the storage layer uses to assign fresh `id`s on INSERT. -/
structure DbState where
  db : List Item
  nextId : Int
deriving DecidableEq

/-- An HTTP response: status code and JSON body (`none` models the empty
body of `new Response(null, \x7bstatus: 204\x7d)`). -/
structure Response where
  status : Nat
  body : Option Json

/-- A `console.error` line emitted by the `query` wrapper: the optional
operation context and the error message. -/
structure LogEntry where
  context : Option String
  message : String
deriving DecidableEq

/-- The characters removed by JavaScript's `String.prototype.trim`
(the common whitespace characters; JSON payloads contain no others in any
case relevant here). -/
def jsWhitespace (c : Char) : Bool :=
  c = ' ' || c = '\t' || c = '\n' || c = '\r' || c = '\x0b' || c = '\x0c'

/-- JavaScript `s.trim()`. -/
def jsTrim (s : String) : String :=
  ⟨((s.toList.dropWhile jsWhitespace).reverse.dropWhile jsWhitespace).reverse⟩

/-- Digit list to natural number. -/
def digitsToNat (cs : List Char) : Nat :=
  cs.foldl (fun a c => a * 10 + (c.toNat - '0'.toNat)) 0

/-- Models `Number(s)` composed with the `Number.isInteger` test of
`parseId`: returns the integer value when `Number(s)` is an integer, `none`
when it is `NaN` or not an integer.  Handles the decimal forms a path
segment can take: surrounding whitespace, empty string (→ 0), optional
sign, digits, optional fraction (integer only when the fraction is all
zeros).  Exponent and hexadecimal forms are treated as non-integer, like
`NaN`; both make `parseId` return `null`, so the dispatcher does not
distinguish them. -/
def jsIntegerNumber (s : String) : Option Int :=
  let t := (jsTrim s).toList
  if t = [] then some 0
  else
    let signed : Bool × List Char :=
      match t with
      | '-' :: cs => (true, cs)
      | '+' :: cs => (false, cs)
      | cs => (false, cs)
    let sign := signed.1
    let cs := signed.2
    let intPart := cs.takeWhile Char.isDigit
    let rest := cs.dropWhile Char.isDigit
    let signedVal : Int := if sign then -(digitsToNat intPart : Int) else (digitsToNat intPart : Int)
    match rest with
    | [] => if intPart = [] then none else some signedVal
    | '.' :: frac =>
        if (intPart ≠ [] ∨ frac ≠ []) ∧ frac.all Char.isDigit then
          if frac.all (fun c => c = '0') then some signedVal else none
        else none
    | _ => none

/-- `parseId(segments)` of `routes.ts`: `null` when there are fewer than
three segments, else `Number(segments[2])` when that is an integer. -/
def parseId (segments : List String) : Option Int :=
  if segments.length < 3 then none
  else jsIntegerNumber (segments.getD 2 "")

/-- The request body as handed to the dispatcher: absent, present but not
valid JSON, or well-formed JSON. -/
inductive RawBody where
  | noBody : RawBody
  | malformed : String → RawBody
  | wellFormed : Json → RawBody

/-- `req.json()`: resolves to the parsed value for well-formed JSON and
rejects (throws) otherwise. -/
def reqJson : RawBody → Except String Json
  | RawBody.noBody => Except.error "Unexpected end of JSON input"
  | RawBody.malformed s => Except.error s
  | RawBody.wellFormed j => Except.ok j

/-- `parseBody(req)` of `routes.ts`: `try { return await req.json() }
catch { return null }`. -/
def parseBody (raw : RawBody) : Json :=
  match reqJson raw with
  | Except.ok j => j
  | Except.error _ => Json.null

/-- An inbound HTTP request as the dispatcher sees it: the method, the
path segments after `url.pathname.split("/").filter(Boolean)`, and the raw
body. -/
structure Request where
  method : String
  segments : List String
  rawBody : RawBody

/-- JavaScript falsiness of a JSON value (`!body`): `null`, `false`, `0`
and `""` are falsy; every array and object is truthy.  (`NaN`, the only
other falsy number, cannot result from `JSON.parse`.) -/
def jsFalsy : Json → Bool
  | Json.null => true
  | Json.bool b => !b
  | Json.num q => q = 0
  | Json.str s => s = ""
  | Json.arr _ => false
  | Json.obj _ => false

/-- Property lookup on a parsed JSON object (`JSON.parse` keeps one value
per key): `some v` when the value is an object with the field, otherwise
`none`, matching JS property access yielding `undefined` on every other
JSON value. -/
def lookupField : List (String × Json) → String → Option Json
  | [], _ => none
  | (k, v) :: rest, key => if k = key then some v else lookupField rest key

/-- `body.k` for a JSON value `body`. -/
def getField (body : Json) (key : String) : Option Json :=
  match body with
  | Json.obj fields => lookupField fields key
  | _ => none

/-- `typeof body.name === "string" && body.name.trim() !== ""`. -/
def isNonEmptyString (v : Option Json) : Bool :=
  match v with
  | some (Json.str s) => !(jsTrim s = "")
  | _ => false

/-- `typeof body.value === "number"`. -/
def isNumber (v : Option Json) : Bool :=
  match v with
  | some (Json.num _) => true
  | _ => false

/-- `validateItem(body)` of `routes.ts`:
`if (!body) return "Body required";`
`if (typeof body.name !== "string" || body.name.trim() === "") return "name must be string";`
`if (typeof body.value !== "number") return "value must be number";`
`return null;`. -/
def validateItem (body : Json) : Option String :=
  if jsFalsy body then some "Body required"
  else if !(isNonEmptyString (getField body "name")) then some "name must be string"
  else if !(isNumber (getField body "value")) then some "value must be number"
  else none

/-- `body.name`, read by the route handlers after `validateItem` has
ensured it is a string (the default is unreachable then). -/
def bodyName (body : Json) : String :=
  match getField body "name" with
  | some (Json.str s) => s
  | _ => ""

/-- `body.value`, read by the route handlers after `validateItem` has
ensured it is a number (the default is unreachable then). -/
def bodyValue (body : Json) : ℚ :=
  match getField body "value" with
  | some (Json.num q) => q
  | _ => 0

/-- Modelled from the spec: `sql.begin` of the external `postgres` client
(not part of this repository), to which `db.ts`'s `transaction` delegates.
Per spec §4.1, the callback runs against a transaction-scoped handle —
modelled as a working copy of the table state — and all its statements
form one atomic unit: on normal completion the unit commits (the working
state becomes the visible state), on failure it rolls back (the visible
state is unchanged) and the error is surfaced. -/
def sqlBegin {α : Type} (callback : List Item → Except String (List Item × α))
    (db : List Item) : Except String α × List Item :=
  match callback db with
  | Except.ok (db2, a) => (Except.ok a, db2)
  | Except.error e => (Except.error e, db)

/-- `transaction(callback)` of `db.ts`: `return sql.begin(callback)`. -/
def transaction {α : Type} (callback : List Item → Except String (List Item × α))
    (db : List Item) : Except String α × List Item :=
  sqlBegin callback db

/-- The `(data, error)` result pair returned by the `query` wrapper. -/
structure QueryResult (α : Type) where
  data : Option α
  error : Option String

/-- `query(queryFn, context)` of `db.ts`: executes the operation in a
`try`; on success returns `{data, error: null}`; on failure catches the
error, logs `Database query error [context]: message`, and returns
`{data: null, error}`. -/
def query {α : Type} (queryFn : Unit → Except String α) (context : Option String) :
    QueryResult α × List LogEntry :=
  match queryFn () with
  | Except.ok d => (⟨some d, none⟩, [])
  | Except.error e => (⟨none, some e⟩, [⟨context, e⟩])

/-- `json(data, status)` of `routes.ts`: a JSON response with the given
status. -/
def jsonResponse (data : Json) (status : Nat) : Response :=
  ⟨status, some data⟩

/-- `badRequest(message)`: `{error: message}` with status 400. -/
def badRequest (message : String) : Response :=
  jsonResponse (Json.obj [("error", Json.str message)]) 400

/-- `notFound()`: `{error: "Not found"}` with status 404. -/
def notFound : Response :=
  jsonResponse (Json.obj [("error", Json.str "Not found")]) 404

/-- The JSON serialization of an `Item` row. -/
def itemJson (it : Item) : Json :=
  Json.obj [("id", Json.num it.id), ("name", Json.str it.name), ("value", Json.num it.value)]

/-- Insert into a list sorted by ascending `id` (for `ORDER BY id`). -/
def insertById (it : Item) : List Item → List Item
  | [] => [it]
  | x :: xs => if it.id ≤ x.id then it :: x :: xs else x :: insertById it xs

/-- `SELECT * FROM playing_with_neon ORDER BY id`. -/
def sortById (db : List Item) : List Item :=
  db.foldr insertById []

/-- The row update performed by `UPDATE playing_with_neon SET name=.., value=..
WHERE id=i` on one row: rows whose `id` matches get the new `name` and
`value`, others are untouched. -/
def updItem (i : Int) (n : String) (v : ℚ) (it : Item) : Item :=
  if it.id = i then Item.mk it.id n v else it

/-- The `GET /api/items` block of `handleApi`: `query(() => sql'SELECT *
FROM playing_with_neon ORDER BY id', "LIST_ITEMS")`; 500 with
`{error: error.message}` on error, else 200 with the JSON rows. -/
def listItems (st : DbState) (fail : Option String) :
    Response × DbState × List LogEntry :=
  let qr := query (fun _ =>
    match fail with
    | some e => Except.error e
    | none => Except.ok (sortById st.db)) (some "LIST_ITEMS")
  match (qr.1).error with
  | some e => (jsonResponse (Json.obj [("error", Json.str e)]) 500, st, qr.2)
  | none =>
      (jsonResponse (match (qr.1).data with
        | some rows => Json.arr (rows.map itemJson)
        | none => Json.null) 200, st, qr.2)

/-- The `POST /api/items` block of `handleApi`: validate, then
`query(() => transaction(tx => INSERT .. RETURNING *), "CREATE_ITEM")`;
400 on invalid body, 500 with `{error: error.message}` on storage error,
else 201 with the inserted row (the storage layer assigns `nextId` as the
fresh `id`). -/
def createItem (body : Json) (st : DbState) (fail : Option String) :
    Response × DbState × List LogEntry :=
  match validateItem body with
  | some v => (badRequest v, st, [])
  | none =>
      let tr := transaction (fun d =>
        match fail with
        | some e => Except.error e
        | none => Except.ok (d ++ [Item.mk st.nextId (bodyName body) (bodyValue body)],
                             Item.mk st.nextId (bodyName body) (bodyValue body))) st.db
      let qr := query (fun _ => tr.1) (some "CREATE_ITEM")
      match (qr.1).error with
      | some e => (jsonResponse (Json.obj [("error", Json.str e)]) 500, ⟨tr.2, st.nextId⟩, qr.2)
      | none =>
          (jsonResponse (match (qr.1).data with
            | some row => itemJson row
            | none => Json.null) 201, ⟨tr.2, st.nextId + 1⟩, qr.2)

/-- The `PUT /api/items/:id` block of `handleApi`: validate, then
`query(() => transaction(tx => UPDATE .. WHERE id=i RETURNING *),
"UPDATE_ITEM")`; the destructuring `const [row] = ..` takes the first
returned row, and `if (!data) return notFound()` maps a missing row to
404; 400 on invalid body, 500 with `{error: error.message}` on storage
error, else 200 with the updated row. -/
def updateItem (i : Int) (body : Json) (st : DbState) (fail : Option String) :
    Response × DbState × List LogEntry :=
  match validateItem body with
  | some v => (badRequest v, st, [])
  | none =>
      let tr := transaction (fun d =>
        match fail with
        | some e => Except.error e
        | none => Except.ok (d.map (updItem i (bodyName body) (bodyValue body)),
            ((d.filter (fun it => it.id = i)).map (updItem i (bodyName body) (bodyValue body))).head?)) st.db
      let qr := query (fun _ => tr.1) (some "UPDATE_ITEM")
      match (qr.1).error with
      | some e => (jsonResponse (Json.obj [("error", Json.str e)]) 500, ⟨tr.2, st.nextId⟩, qr.2)
      | none =>
          match (qr.1).data with
          | some (some row) => (jsonResponse (itemJson row) 200, ⟨tr.2, st.nextId⟩, qr.2)
          | _ => (notFound, ⟨tr.2, st.nextId⟩, qr.2)

/-- The `DELETE /api/items/:id` block of `handleApi`:
`query(() => transaction(tx => DELETE .. WHERE id=i), "DELETE_ITEM")`;
500 with `{error: error.message}` on storage error, else 204 with empty
body (whether or not any row matched). -/
def deleteItem (i : Int) (st : DbState) (fail : Option String) :
    Response × DbState × List LogEntry :=
  let tr := transaction (fun d =>
    match fail with
    | some e => Except.error e
    | none => Except.ok (d.filter (fun it => it.id ≠ i), ())) st.db
  let qr := query (fun _ => tr.1) (some "DELETE_ITEM")
  match (qr.1).error with
  | some e => (jsonResponse (Json.obj [("error", Json.str e)]) 500, ⟨tr.2, st.nextId⟩, qr.2)
  | none => (⟨204, none⟩, ⟨tr.2, st.nextId⟩, qr.2)

/-- `handleApi(req)` of `routes.ts`: splits the path, parses the optional
id, and dispatches on method and path shape to the four route blocks, with
`notFound()` as the fallthrough.  The extra arguments model the storage
state and the storage-failure oracle; the result carries the response, the
storage state afterwards, and the `console.error` log entries emitted. -/
def handleApi (req : Request) (st : DbState) (fail : Option String) :
    Response × DbState × List LogEntry :=
  let segments := req.segments
  let id := parseId segments
  if req.method = "GET" ∧ segments.length = 2 then
    listItems st fail
  else if req.method = "POST" ∧ segments.length = 2 then
    createItem (parseBody req.rawBody) st fail
  else if req.method = "PUT" ∧ id ≠ none then
    updateItem (id.getD 0) (parseBody req.rawBody) st fail
  else if req.method = "DELETE" ∧ id ≠ none then
    deleteItem (id.getD 0) st fail
  else
    (notFound, st, [])

/-- The four route conditions of `handleApi`, as the code tests them. -/
def matchesRoute (req : Request) : Prop :=
  (req.method = "GET" ∧ req.segments.length = 2) ∨
  (req.method = "POST" ∧ req.segments.length = 2) ∨
  (req.method = "PUT" ∧ parseId req.segments ≠ none) ∨
  (req.method = "DELETE" ∧ parseId req.segments ≠ none)

instance (req : Request) : Decidable (matchesRoute req) := by
  unfold matchesRoute
  infer_instance

/-- Dispatch lemma: a GET with a two-segment path takes the list branch. -/
theorem handleApi_get (segs : List String) (rb : RawBody) (st : DbState) (fail : Option String)
    (h : segs.length = 2) :
    handleApi ⟨"GET", segs, rb⟩ st fail = listItems st fail := by
  simp [handleApi, h]

/-- Dispatch lemma: a POST with a two-segment path takes the create branch. -/
theorem handleApi_post (segs : List String) (rb : RawBody) (st : DbState) (fail : Option String)
    (h : segs.length = 2) :
    handleApi ⟨"POST", segs, rb⟩ st fail = createItem (parseBody rb) st fail := by
  simp [handleApi, h]

/-- Dispatch lemma: a PUT whose third segment parses as an integer takes
the update branch. -/
theorem handleApi_put (segs : List String) (rb : RawBody) (st : DbState) (fail : Option String)
    (i : Int) (h : parseId segs = some i) :
    handleApi ⟨"PUT", segs, rb⟩ st fail = updateItem i (parseBody rb) st fail := by
  simp [handleApi, h]

/-- Dispatch lemma: a DELETE whose third segment parses as an integer
takes the delete branch. -/
theorem handleApi_delete (segs : List String) (rb : RawBody) (st : DbState) (fail : Option String)
    (i : Int) (h : parseId segs = some i) :
    handleApi ⟨"DELETE", segs, rb⟩ st fail = deleteItem i st fail := by
  simp [handleApi, h]

/-- Dispatch lemma: a request matching none of the four route conditions
falls through to `notFound()` with the state untouched and nothing logged. -/
theorem handleApi_no_route (req : Request) (st : DbState) (fail : Option String)
    (h : ¬ matchesRoute req) :
    handleApi req st fail = (notFound, st, []) := by
  have h1 : ¬ (req.method = "GET" ∧ req.segments.length = 2) := fun hc => h (Or.inl hc)
  have h2 : ¬ (req.method = "POST" ∧ req.segments.length = 2) := fun hc => h (Or.inr (Or.inl hc))
  have h3 : ¬ (req.method = "PUT" ∧ parseId req.segments ≠ none) := fun hc => h (Or.inr (Or.inr (Or.inl hc)))
  have h4 : ¬ (req.method = "DELETE" ∧ parseId req.segments ≠ none) := fun hc => h (Or.inr (Or.inr (Or.inr hc)))
  simp [handleApi, h1, h2, h3, h4]

/-- Equation: `GET /api/items` with the storage layer succeeding returns
200 and the rows sorted by id. -/
theorem listItems_ok (st : DbState) :
    listItems st none = (jsonResponse (Json.arr ((sortById st.db).map itemJson)) 200, st, []) := rfl

/-- Equation: `GET /api/items` with the storage layer raising `e` returns
500 with `{error: e}` and logs the failure. -/
theorem listItems_err (st : DbState) (e : String) :
    listItems st (some e)
      = (jsonResponse (Json.obj [("error", Json.str e)]) 500, st, [⟨some "LIST_ITEMS", e⟩]) := rfl

/-- Equation: an invalid body short-circuits the create branch to 400
before any storage call (no state change, no log). -/
theorem createItem_invalid (body : Json) (st : DbState) (fail : Option String) (v : String)
    (hv : validateItem body = some v) :
    createItem body st fail = (badRequest v, st, []) := by
  simp [createItem, hv]

/-- Equation: a storage failure in the create branch yields 500 with the
error message, a rolled-back (unchanged) state, and a log entry. -/
theorem createItem_err (body : Json) (st : DbState) (e : String)
    (hv : validateItem body = none) :
    createItem body st (some e)
      = (jsonResponse (Json.obj [("error", Json.str e)]) 500, st, [⟨some "CREATE_ITEM", e⟩]) := by
  simp [createItem, hv, transaction, sqlBegin, query]

/-- Equation: a successful create appends the new row (with the fresh id)
and returns it with 201. -/
theorem createItem_ok (body : Json) (st : DbState)
    (hv : validateItem body = none) :
    createItem body st none
      = (jsonResponse (itemJson (Item.mk st.nextId (bodyName body) (bodyValue body))) 201,
         ⟨st.db ++ [Item.mk st.nextId (bodyName body) (bodyValue body)], st.nextId + 1⟩, []) := by
  simp [createItem, hv, transaction, sqlBegin, query]

/-- Equation: an invalid body short-circuits the update branch to 400
before any storage call (no state change, no log). -/
theorem updateItem_invalid (i : Int) (body : Json) (st : DbState) (fail : Option String) (v : String)
    (hv : validateItem body = some v) :
    updateItem i body st fail = (badRequest v, st, []) := by
  simp [updateItem, hv]

/-- Equation: a storage failure in the update branch yields 500 with the
error message, a rolled-back (unchanged) state, and a log entry. -/
theorem updateItem_err (i : Int) (body : Json) (st : DbState) (e : String)
    (hv : validateItem body = none) :
    updateItem i body st (some e)
      = (jsonResponse (Json.obj [("error", Json.str e)]) 500, st, [⟨some "UPDATE_ITEM", e⟩]) := by
  simp [updateItem, hv, transaction, sqlBegin, query]

/-- Rows not matching the id are untouched by the UPDATE's row function. -/
theorem map_updItem_id (i : Int) (n : String) (v : ℚ) (l : List Item)
    (h : ∀ it ∈ l, it.id ≠ i) :
    l.map (updItem i n v) = l := by
  induction l with
  | nil => rfl
  | cons x xs ih =>
      simp only [List.map_cons]
      rw [ih (fun it hit => h it (List.mem_cons_of_mem _ hit))]
      have hx : x.id ≠ i := h x (List.mem_cons_self _ _)
      simp [updItem, hx]

/-- Equation: a successful update with a matching row returns 200 with the
first updated matching row and commits the mapped table. -/
theorem updateItem_found (i : Int) (body : Json) (st : DbState) (r0 : Item)
    (hv : validateItem body = none)
    (hr : (st.db.filter (fun it => it.id = i)).head? = some r0) :
    updateItem i body st none
      = (jsonResponse (itemJson (updItem i (bodyName body) (bodyValue body) r0)) 200,
         ⟨st.db.map (updItem i (bodyName body) (bodyValue body)), st.nextId⟩, []) := by
  simp only [List.filter_head?] at hr
  simp [updateItem, hv, transaction, sqlBegin, query, hr]

/-- Equation: a successful update matching no row returns 404 and leaves
the table unchanged. -/
theorem updateItem_nomatch (i : Int) (body : Json) (st : DbState)
    (hv : validateItem body = none)
    (hr : ∀ it ∈ st.db, it.id ≠ i) :
    updateItem i body st none = (notFound, st, []) := by
  have hfind : List.find? (fun it => decide (it.id = i)) st.db = none :=
    List.find?_eq_none.mpr (by simpa using hr)
  have hmap := map_updItem_id i (bodyName body) (bodyValue body) st.db hr
  simp [updateItem, hv, transaction, sqlBegin, query, hfind, hmap]

/-- Equation: a successful delete removes the matching rows and returns
204 with an empty body. -/
theorem deleteItem_ok (i : Int) (st : DbState) :
    deleteItem i st none
      = (⟨204, none⟩, ⟨st.db.filter (fun it => it.id ≠ i), st.nextId⟩, []) := rfl

/-- Equation: a storage failure in the delete branch yields 500 with the
error message, a rolled-back (unchanged) state, and a log entry. -/
theorem deleteItem_err (i : Int) (st : DbState) (e : String) :
    deleteItem i st (some e)
      = (jsonResponse (Json.obj [("error", Json.str e)]) 500, st, [⟨some "DELETE_ITEM", e⟩]) := rfl

/-- The `name` rule of `validateItem`, in terms of the body's field. -/
theorem isNonEmptyString_iff (v : Option Json) :
    isNonEmptyString v = true ↔ ∃ s, v = some (Json.str s) ∧ jsTrim s ≠ "" := by
  cases v with
  | none => simp [isNonEmptyString]
  | some j => cases j <;> simp [isNonEmptyString]

/-- The `value` rule of `validateItem`, in terms of the body's field. -/
theorem isNumber_iff (v : Option Json) :
    isNumber v = true ↔ ∃ q, v = some (Json.num q) := by
  cases v with
  | none => simp [isNumber]
  | some j => cases j <;> simp [isNumber]

/-- Claim C1, counterexample: the claim says the raw underlying error is
never leaked and only a generic message appears in the 500 response body.
In fact the dispatcher returns `{error: error.message}`: for a GET over an
empty table, a storage failure with message "connection refused" produces
that very string in the body, a failure with message "timeout" produces
"timeout", and the two bodies differ — so the body is the underlying
message verbatim, not a generic one. -/
theorem storage_error_leak_cex :
    (handleApi ⟨"GET", ["api","items"], RawBody.noBody⟩ ⟨[], 1⟩ (some "connection refused")).1
      = ⟨500, some (Json.obj [("error", Json.str "connection refused")])⟩ ∧
    (handleApi ⟨"GET", ["api","items"], RawBody.noBody⟩ ⟨[], 1⟩ (some "timeout")).1
      = ⟨500, some (Json.obj [("error", Json.str "timeout")])⟩ ∧
    (handleApi ⟨"GET", ["api","items"], RawBody.noBody⟩ ⟨[], 1⟩ (some "connection refused")).1.body
      ≠ (handleApi ⟨"GET", ["api","items"], RawBody.noBody⟩ ⟨[], 1⟩ (some "timeout")).1.body := by
  refine ⟨rfl, rfl, ?_⟩
  intro h
  simp [handleApi, listItems, query, jsonResponse] at h

/-- Claim C1 (amended): when a storage operation fails with message `e`,
every 500 response the dispatcher produces carries body `{error: e}` — the
underlying error's message verbatim, not a generic message — together with
one log entry holding an operation context and that message, and the
storage state is unchanged. -/
theorem storage_error_500_message (req : Request) (st : DbState) (e : String)
    (h : (handleApi req st (some e)).1.status = 500) :
    (handleApi req st (some e)).1.body = some (Json.obj [("error", Json.str e)]) ∧
    (∃ c : String, (handleApi req st (some e)).2.2 = [⟨some c, e⟩]) ∧
    (handleApi req st (some e)).2.1 = st := by
  obtain ⟨m, segs, rb⟩ := req
  by_cases hm : matchesRoute ⟨m, segs, rb⟩
  · rcases hm with ⟨hg, hlen⟩ | ⟨hp, hlen⟩ | ⟨hp, hid⟩ | ⟨hd, hid⟩
    · simp only at hg; subst hg
      rw [handleApi_get segs rb st (some e) hlen] at h ⊢
      rw [listItems_err st e] at h ⊢
      exact ⟨rfl, ⟨"LIST_ITEMS", rfl⟩, rfl⟩
    · simp only at hp; subst hp
      rw [handleApi_post segs rb st (some e) hlen] at h ⊢
      rcases hv : validateItem (parseBody rb) with _ | v
      · rw [createItem_err (parseBody rb) st e hv] at h ⊢
        exact ⟨rfl, ⟨"CREATE_ITEM", rfl⟩, rfl⟩
      · rw [createItem_invalid (parseBody rb) st (some e) v hv] at h
        simp [badRequest, jsonResponse] at h
    · simp only at hp; subst hp
      obtain ⟨i, hi⟩ := Option.ne_none_iff_exists'.mp hid
      rw [handleApi_put segs rb st (some e) i hi] at h ⊢
      rcases hv : validateItem (parseBody rb) with _ | v
      · rw [updateItem_err i (parseBody rb) st e hv] at h ⊢
        exact ⟨rfl, ⟨"UPDATE_ITEM", rfl⟩, rfl⟩
      · rw [updateItem_invalid i (parseBody rb) st (some e) v hv] at h
        simp [badRequest, jsonResponse] at h
    · simp only at hd; subst hd
      obtain ⟨i, hi⟩ := Option.ne_none_iff_exists'.mp hid
      rw [handleApi_delete segs rb st (some e) i hi] at h ⊢
      rw [deleteItem_err i st e] at h ⊢
      exact ⟨rfl, ⟨"DELETE_ITEM", rfl⟩, rfl⟩
  · rw [handleApi_no_route _ st (some e) hm] at h
    simp [notFound, jsonResponse] at h

/-- Claim C1 witness: a concrete GET with a failing storage layer. -/
theorem storage_error_500_message_witness :
    (handleApi ⟨"GET", ["api","items"], RawBody.noBody⟩ ⟨[], 1⟩ (some "boom")).1.body
      = some (Json.obj [("error", Json.str "boom")]) ∧
    (∃ c : String,
      (handleApi ⟨"GET", ["api","items"], RawBody.noBody⟩ ⟨[], 1⟩ (some "boom")).2.2
        = [⟨some c, "boom"⟩]) ∧
    (handleApi ⟨"GET", ["api","items"], RawBody.noBody⟩ ⟨[], 1⟩ (some "boom")).2.1 = ⟨[], 1⟩ :=
  storage_error_500_message ⟨"GET", ["api","items"], RawBody.noBody⟩ ⟨[], 1⟩ "boom" rfl

/-- Claim C2: for a PUT whose third segment parses as integer `i`: an
invalid body gives 400 with the reason, before any row lookup or storage
call (for every storage oracle, with no state change and no log); with a
valid body, a storage failure gives 500; on success, if a row matches `i`
the dispatcher returns 200 with the updated row and commits the update,
and if no row matches it returns 404 with the state unchanged. -/
theorem put_spec (segs : List String) (rb : RawBody) (st : DbState) (i : Int)
    (hid : parseId segs = some i) :
    (∀ v, validateItem (parseBody rb) = some v →
       ∀ fail, handleApi ⟨"PUT", segs, rb⟩ st fail = (badRequest v, st, [])) ∧
    (validateItem (parseBody rb) = none →
       (∀ e, handleApi ⟨"PUT", segs, rb⟩ st (some e)
          = (jsonResponse (Json.obj [("error", Json.str e)]) 500, st,
             [⟨some "UPDATE_ITEM", e⟩])) ∧
       (∀ r0, (st.db.filter (fun it => it.id = i)).head? = some r0 →
          handleApi ⟨"PUT", segs, rb⟩ st none
            = (jsonResponse
                 (itemJson (updItem i (bodyName (parseBody rb)) (bodyValue (parseBody rb)) r0)) 200,
               ⟨st.db.map (updItem i (bodyName (parseBody rb)) (bodyValue (parseBody rb))),
                st.nextId⟩, [])) ∧
       ((∀ it ∈ st.db, it.id ≠ i) →
          handleApi ⟨"PUT", segs, rb⟩ st none = (notFound, st, []))) := by
  refine ⟨?_, ?_⟩
  · intro v hv fail
    rw [handleApi_put segs rb st fail i hid, updateItem_invalid i (parseBody rb) st fail v hv]
  · intro hv
    refine ⟨?_, ?_, ?_⟩
    · intro e
      rw [handleApi_put segs rb st (some e) i hid, updateItem_err i (parseBody rb) st e hv]
    · intro r0 hr
      rw [handleApi_put segs rb st none i hid, updateItem_found i (parseBody rb) st r0 hv hr]
    · intro hr
      rw [handleApi_put segs rb st none i hid, updateItem_nomatch i (parseBody rb) st hv hr]

/-- Claim C2 witness: updating an existing row returns 200 with the new
values; a non-existent id gives 404; an invalid body gives 400 even with a
failing storage layer. -/
theorem put_spec_witness :
    handleApi ⟨"PUT", ["api","items","5"],
        RawBody.wellFormed (Json.obj [("name", Json.str "x"), ("value", Json.num 2)])⟩
        ⟨[Item.mk 5 "a" 0], 6⟩ none
      = (jsonResponse (itemJson (Item.mk 5 "x" 2)) 200, ⟨[Item.mk 5 "x" 2], 6⟩, []) ∧
    handleApi ⟨"PUT", ["api","items","9"],
        RawBody.wellFormed (Json.obj [("name", Json.str "x"), ("value", Json.num 2)])⟩
        ⟨[Item.mk 5 "a" 0], 6⟩ none
      = (notFound, ⟨[Item.mk 5 "a" 0], 6⟩, []) ∧
    handleApi ⟨"PUT", ["api","items","5"], RawBody.wellFormed (Json.num 3)⟩
        ⟨[Item.mk 5 "a" 0], 6⟩ (some "boom")
      = (badRequest "name must be string", ⟨[Item.mk 5 "a" 0], 6⟩, []) :=
  ⟨((put_spec ["api","items","5"]
        (RawBody.wellFormed (Json.obj [("name", Json.str "x"), ("value", Json.num 2)]))
        ⟨[Item.mk 5 "a" 0], 6⟩ 5 rfl).2 rfl).2.1 (Item.mk 5 "a" 0) rfl,
   ((put_spec ["api","items","9"]
        (RawBody.wellFormed (Json.obj [("name", Json.str "x"), ("value", Json.num 2)]))
        ⟨[Item.mk 5 "a" 0], 6⟩ 9 rfl).2 rfl).2.2 (by decide),
   (put_spec ["api","items","5"] (RawBody.wellFormed (Json.num 3))
        ⟨[Item.mk 5 "a" 0], 6⟩ 5 rfl).1 "name must be string" rfl (some "boom")⟩

/-- Claim C3, counterexample: the claim's first rule is "body present →
else Body required".  The JSON text `0` parses to a present, non-null
payload, yet `validateItem` returns "Body required" for it (the code's
first check is JS truthiness `!body`, not presence), where the claim's
rules would reach the name rule and return "name must be string". -/
theorem validate_falsy_cex :
    Json.num 0 ≠ Json.null ∧
    validateItem (Json.num 0) = some "Body required" ∧
    validateItem (Json.num 0) ≠ some "name must be string" := by
  refine ⟨fun h => Json.noConfusion h, rfl, by decide⟩

/-- Claim C3 (amended): `validateItem` returns `null` exactly when the
payload is valid, and otherwise the reason of the first failing rule in
this fixed order — body JS-truthy (not `null`, `false`, `0` or `""`) →
else "Body required"; `body.name` a string that is non-empty after
trimming → else "name must be string"; `body.value` a number → else
"value must be number".  No other field is validated or rejected: the
result depends only on the `name` and `value` fields of an object body. -/
theorem validate_rules (body : Json) :
    (validateItem body = none ↔
       jsFalsy body = false ∧ (∃ s, getField body "name" = some (Json.str s) ∧ jsTrim s ≠ "")
         ∧ (∃ q, getField body "value" = some (Json.num q))) ∧
    (jsFalsy body = true → validateItem body = some "Body required") ∧
    (jsFalsy body = false → ¬ (∃ s, getField body "name" = some (Json.str s) ∧ jsTrim s ≠ "") →
       validateItem body = some "name must be string") ∧
    (jsFalsy body = false → (∃ s, getField body "name" = some (Json.str s) ∧ jsTrim s ≠ "") →
       ¬ (∃ q, getField body "value" = some (Json.num q)) →
       validateItem body = some "value must be number") ∧
    (∀ f g : List (String × Json),
       lookupField f "name" = lookupField g "name" →
       lookupField f "value" = lookupField g "value" →
       validateItem (Json.obj f) = validateItem (Json.obj g)) := by
  refine ⟨?_, ?_, ?_, ?_, ?_⟩
  · rw [← isNonEmptyString_iff, ← isNumber_iff]
    unfold validateItem
    rcases h1 : jsFalsy body <;> rcases h2 : isNonEmptyString (getField body "name") <;>
      rcases h3 : isNumber (getField body "value") <;> simp [h1, h2, h3]
  · intro h; simp [validateItem, h]
  · intro h1 h2
    rw [← isNonEmptyString_iff] at h2
    simp at h2
    simp [validateItem, h1, h2]
  · intro h1 h2 h3
    rw [← isNonEmptyString_iff] at h2
    rw [← isNumber_iff] at h3
    simp at h3
    simp [validateItem, h1, h2, h3]
  · intro f g hn hv
    simp [validateItem, jsFalsy, getField, hn, hv]

/-- Claim C3 witness: a valid payload passes; a null body fails the
truthiness rule. -/
theorem validate_rules_witness :
    validateItem (Json.obj [("name", Json.str "x"), ("value", Json.num 1)]) = none ∧
    validateItem Json.null = some "Body required" :=
  ⟨(validate_rules _).1.mpr ⟨rfl, ⟨"x", rfl, by decide⟩, ⟨1, rfl⟩⟩,
   (validate_rules _).2.1 rfl⟩

/-- Claim C4: for a POST or PUT matching its route whose body fails to
parse as JSON, `parseBody` yields `null`, validation fails with
"Body required", and the response is 400 with that message — for every
storage oracle, with the state unchanged and nothing logged. -/
theorem parse_fail_400 (method : String) (segs : List String) (rb : RawBody)
    (st : DbState) (fail : Option String) (e : String)
    (hroute : (method = "POST" ∧ segs.length = 2) ∨ (method = "PUT" ∧ parseId segs ≠ none))
    (hparse : reqJson rb = Except.error e) :
    parseBody rb = Json.null ∧
    validateItem (parseBody rb) = some "Body required" ∧
    handleApi ⟨method, segs, rb⟩ st fail = (badRequest "Body required", st, []) := by
  have hpb : parseBody rb = Json.null := by unfold parseBody; rw [hparse]
  refine ⟨hpb, by rw [hpb]; rfl, ?_⟩
  rcases hroute with ⟨hm, hlen⟩ | ⟨hm, hid⟩
  · subst hm
    rw [handleApi_post segs rb st fail hlen, hpb]
    rfl
  · subst hm
    obtain ⟨i, hi⟩ := Option.ne_none_iff_exists'.mp hid
    rw [handleApi_put segs rb st fail i hi, hpb]
    rfl

/-- Claim C4 witness: a POST with an unparseable body gets 400. -/
theorem parse_fail_400_witness :
    parseBody (RawBody.malformed "not json") = Json.null ∧
    validateItem (parseBody (RawBody.malformed "not json")) = some "Body required" ∧
    handleApi ⟨"POST", ["api","items"], RawBody.malformed "not json"⟩ ⟨[], 1⟩ none
      = (badRequest "Body required", ⟨[], 1⟩, []) :=
  parse_fail_400 "POST" ["api","items"] (RawBody.malformed "not json") ⟨[], 1⟩ none
    "not json" (Or.inl ⟨rfl, rfl⟩) rfl

/-- Claim C5: for a DELETE whose third segment parses as integer `i`, a
successful storage round-trip returns 204 with an empty body whether or
not any row has id `i` (the state keeps exactly the rows with other ids),
and a storage failure returns 500 with the error message — the only
failure mapping the branch has. -/
theorem del_204 (segs : List String) (rb : RawBody) (st : DbState) (i : Int)
    (hid : parseId segs = some i) :
    handleApi ⟨"DELETE", segs, rb⟩ st none
      = (⟨204, none⟩, ⟨st.db.filter (fun it => it.id ≠ i), st.nextId⟩, []) ∧
    (∀ e, handleApi ⟨"DELETE", segs, rb⟩ st (some e)
      = (jsonResponse (Json.obj [("error", Json.str e)]) 500, st, [⟨some "DELETE_ITEM", e⟩])) := by
  constructor
  · rw [handleApi_delete segs rb st none i hid]
    rfl
  · intro e
    rw [handleApi_delete segs rb st (some e) i hid]
    rfl

/-- Claim C5 witness: deleting an id that is not in the table still
returns 204, and a storage failure on the same request returns 500. -/
theorem del_204_witness :
    handleApi ⟨"DELETE", ["api","items","7"], RawBody.noBody⟩ ⟨[Item.mk 5 "a" 0], 6⟩ none
      = (⟨204, none⟩, ⟨[Item.mk 5 "a" 0].filter (fun it => it.id ≠ 7), 6⟩, []) ∧
    handleApi ⟨"DELETE", ["api","items","7"], RawBody.noBody⟩ ⟨[Item.mk 5 "a" 0], 6⟩ (some "boom")
      = (jsonResponse (Json.obj [("error", Json.str "boom")]) 500, ⟨[Item.mk 5 "a" 0], 6⟩,
         [⟨some "DELETE_ITEM", "boom"⟩]) :=
  ⟨(del_204 ["api","items","7"] RawBody.noBody ⟨[Item.mk 5 "a" 0], 6⟩ 7 rfl).1,
   (del_204 ["api","items","7"] RawBody.noBody ⟨[Item.mk 5 "a" 0], 6⟩ 7 rfl).2 "boom"⟩

/-- Claim C6: for every callback passed to the transaction helper, the
statements issued through the transaction-scoped handle form one atomic
unit: if the callback completes normally the unit commits (the callback's
final working state becomes the visible state), and if it fails the unit
rolls back — the visible state is exactly the state before, so no partial
write can be seen by a subsequent read. -/
theorem transaction_atomic {α : Type} (cb : List Item → Except String (List Item × α))
    (db : List Item) :
    (∀ e, cb db = Except.error e → transaction cb db = (Except.error e, db)) ∧
    (∀ db2 a, cb db = Except.ok (db2, a) → transaction cb db = (Except.ok a, db2)) := by
  constructor
  · intro e he; simp [transaction, sqlBegin, he]
  · intro db2 a ha; simp [transaction, sqlBegin, ha]

/-- Claim C6 witness: a failing callback leaves the single-row table
untouched; a succeeding one commits its insert. -/
theorem transaction_atomic_witness :
    transaction (fun _ : List Item => (Except.error "boom" : Except String (List Item × Unit)))
        [Item.mk 1 "a" 0]
      = (Except.error "boom", [Item.mk 1 "a" 0]) ∧
    transaction (fun d : List Item =>
        (Except.ok (d ++ [Item.mk 2 "b" 1], (7 : Nat)) : Except String (List Item × Nat)))
        [Item.mk 1 "a" 0]
      = (Except.ok 7, [Item.mk 1 "a" 0, Item.mk 2 "b" 1]) :=
  ⟨(transaction_atomic _ _).1 "boom" rfl, (transaction_atomic _ _).2 _ 7 rfl⟩

/-- Claim C7: for every zero-argument operation given to the query
wrapper, a successful run returns `{data, error: null}` with nothing
logged, and a failing run returns `{data: null, error}` — the wrapper
returns normally rather than rethrowing — together with exactly one
diagnostic log entry carrying the operation context and the error
message. -/
theorem query_wrapper_spec {α : Type} (op : Unit → Except String α) (ctx : Option String) :
    (∀ d, op () = Except.ok d → query op ctx = (⟨some d, none⟩, [])) ∧
    (∀ e, op () = Except.error e → query op ctx = (⟨none, some e⟩, [⟨ctx, e⟩])) := by
  constructor <;> intro x hx <;> simp [query, hx]

/-- Claim C7 witness: a succeeding and a failing operation. -/
theorem query_wrapper_spec_witness :
    query (fun _ => (Except.ok 5 : Except String Nat)) (some "CTX") = (⟨some 5, none⟩, []) ∧
    query (fun _ => (Except.error "oops" : Except String Nat)) (some "CTX")
      = (⟨none, some "oops"⟩, [⟨some "CTX", "oops"⟩]) :=
  ⟨(query_wrapper_spec _ _).1 5 rfl, (query_wrapper_spec _ _).2 "oops" rfl⟩

/-- The updated row keeps its id. -/
theorem updItem_id_eq (i : Int) (n : String) (v : ℚ) (it : Item) :
    (updItem i n v it).id = it.id := by
  unfold updItem; split <;> rfl

/-- Applying the same UPDATE row function twice equals applying it once. -/
theorem updItem_idem (i : Int) (n : String) (v : ℚ) (it : Item) :
    updItem i n v (updItem i n v it) = updItem i n v it := by
  unfold updItem
  by_cases h : it.id = i <;> simp [h]

/-- The list branch only ever answers 200 or 500. -/
theorem listItems_status (st : DbState) (fail : Option String) :
    (listItems st fail).1.status ∈ ([200, 201, 204, 400, 404, 500] : List Nat) := by
  cases fail with
  | none => rw [listItems_ok]; simp [jsonResponse]
  | some e => rw [listItems_err]; simp [jsonResponse]

/-- The create branch only ever answers 201, 400 or 500. -/
theorem createItem_status (body : Json) (st : DbState) (fail : Option String) :
    (createItem body st fail).1.status ∈ ([200, 201, 204, 400, 404, 500] : List Nat) := by
  rcases hv : validateItem body with _ | v
  · cases fail with
    | none => rw [createItem_ok body st hv]; simp [jsonResponse]
    | some e => rw [createItem_err body st e hv]; simp [jsonResponse]
  · rw [createItem_invalid body st fail v hv]; simp [badRequest, jsonResponse]

/-- The update branch only ever answers 200, 400, 404 or 500. -/
theorem updateItem_status (i : Int) (body : Json) (st : DbState) (fail : Option String) :
    (updateItem i body st fail).1.status ∈ ([200, 201, 204, 400, 404, 500] : List Nat) := by
  rcases hv : validateItem body with _ | v
  · cases fail with
    | none =>
        rcases hfind : List.find? (fun it => decide (it.id = i)) st.db with _ | r0
        · simp [updateItem, hv, transaction, sqlBegin, query, hfind, notFound, jsonResponse]
        · simp [updateItem, hv, transaction, sqlBegin, query, hfind, jsonResponse]
    | some e => rw [updateItem_err i body st e hv]; simp [jsonResponse]
  · rw [updateItem_invalid i body st fail v hv]; simp [badRequest, jsonResponse]

/-- The delete branch only ever answers 204 or 500. -/
theorem deleteItem_status (i : Int) (st : DbState) (fail : Option String) :
    (deleteItem i st fail).1.status ∈ ([200, 201, 204, 400, 404, 500] : List Nat) := by
  cases fail with
  | none => rw [deleteItem_ok]; simp
  | some e => rw [deleteItem_err]; simp [jsonResponse]

/-- Claim C8: for every inbound request — any method, path segments, body
and storage outcome — the dispatcher produces an HTTP response (its status
is one of the six the code can emit, so no branch escapes without one),
and every method/path combination matching none of the four CRUD route
conditions yields the 404 `notFound()` response with the state untouched
and nothing logged. -/
theorem api_total_and_404 (req : Request) (st : DbState) (fail : Option String) :
    (handleApi req st fail).1.status ∈ ([200, 201, 204, 400, 404, 500] : List Nat) ∧
    (¬ matchesRoute req → handleApi req st fail = (notFound, st, [])) := by
  refine ⟨?_, handleApi_no_route req st fail⟩
  obtain ⟨m, segs, rb⟩ := req
  by_cases hm : matchesRoute ⟨m, segs, rb⟩
  · rcases hm with ⟨hg, hlen⟩ | ⟨hp, hlen⟩ | ⟨hp, hid⟩ | ⟨hd, hid⟩
    · simp only at hg; subst hg
      rw [handleApi_get segs rb st fail hlen]
      exact listItems_status st fail
    · simp only at hp; subst hp
      rw [handleApi_post segs rb st fail hlen]
      exact createItem_status (parseBody rb) st fail
    · simp only at hp; subst hp
      obtain ⟨i, hi⟩ := Option.ne_none_iff_exists'.mp hid
      rw [handleApi_put segs rb st fail i hi]
      exact updateItem_status i (parseBody rb) st fail
    · simp only at hd; subst hd
      obtain ⟨i, hi⟩ := Option.ne_none_iff_exists'.mp hid
      rw [handleApi_delete segs rb st fail i hi]
      exact deleteItem_status i st fail
  · rw [handleApi_no_route _ st fail hm]
    simp [notFound, jsonResponse]

/-- Claim C8 witness: an unrouted method/path combination answers 404. -/
theorem api_total_and_404_witness :
    (handleApi ⟨"PATCH", ["api","items","5"], RawBody.noBody⟩ ⟨[], 1⟩ none).1.status
      ∈ ([200, 201, 204, 400, 404, 500] : List Nat) ∧
    handleApi ⟨"PATCH", ["api","items","5"], RawBody.noBody⟩ ⟨[], 1⟩ none
      = (notFound, ⟨[], 1⟩, []) :=
  ⟨(api_total_and_404 ⟨"PATCH", ["api","items","5"], RawBody.noBody⟩ ⟨[], 1⟩ none).1,
   (api_total_and_404 ⟨"PATCH", ["api","items","5"], RawBody.noBody⟩ ⟨[], 1⟩ none).2
     (by decide)⟩

/-- Claim C9: for an existing item id and a valid body, performing the
same PUT twice in a row yields the same response both times and leaves the
stored table in the same state as performing it once. -/
theorem put_idempotent (segs : List String) (rb : RawBody) (st : DbState) (i : Int)
    (hid : parseId segs = some i)
    (hv : validateItem (parseBody rb) = none)
    (hex : ∃ it ∈ st.db, it.id = i) :
    (handleApi ⟨"PUT", segs, rb⟩ (handleApi ⟨"PUT", segs, rb⟩ st none).2.1 none).1
      = (handleApi ⟨"PUT", segs, rb⟩ st none).1 ∧
    (handleApi ⟨"PUT", segs, rb⟩ (handleApi ⟨"PUT", segs, rb⟩ st none).2.1 none).2.1
      = (handleApi ⟨"PUT", segs, rb⟩ st none).2.1 := by
  have hsome : (List.find? (fun it => decide (it.id = i)) st.db).isSome := by
    rw [List.find?_isSome]
    obtain ⟨it, hit, hii⟩ := hex
    exact ⟨it, hit, by simpa using hii⟩
  obtain ⟨r0, hfind⟩ := Option.isSome_iff_exists.mp hsome
  have hhead : (st.db.filter (fun it => it.id = i)).head? = some r0 := by
    rw [List.filter_head?]; exact hfind
  have h1 := updateItem_found i (parseBody rb) st r0 hv hhead
  have hcomp : (fun it => decide (it.id = i)) ∘
      (updItem i (bodyName (parseBody rb)) (bodyValue (parseBody rb)))
        = fun it => decide (it.id = i) := by
    funext it
    simp [Function.comp, updItem_id_eq]
  have hfind2 : List.find? (fun it => decide (it.id = i))
      (st.db.map (updItem i (bodyName (parseBody rb)) (bodyValue (parseBody rb))))
        = some (updItem i (bodyName (parseBody rb)) (bodyValue (parseBody rb)) r0) := by
    rw [List.find?_map, hcomp, hfind]
    rfl
  have hhead2 : ((st.db.map (updItem i (bodyName (parseBody rb)) (bodyValue (parseBody rb)))).filter
      (fun it => it.id = i)).head?
        = some (updItem i (bodyName (parseBody rb)) (bodyValue (parseBody rb)) r0) := by
    rw [List.filter_head?]; exact hfind2
  have h2 := updateItem_found i (parseBody rb)
    ⟨st.db.map (updItem i (bodyName (parseBody rb)) (bodyValue (parseBody rb))), st.nextId⟩
    (updItem i (bodyName (parseBody rb)) (bodyValue (parseBody rb)) r0) hv hhead2
  have hmapmap : (st.db.map (updItem i (bodyName (parseBody rb)) (bodyValue (parseBody rb)))).map
      (updItem i (bodyName (parseBody rb)) (bodyValue (parseBody rb)))
        = st.db.map (updItem i (bodyName (parseBody rb)) (bodyValue (parseBody rb))) := by
    rw [List.map_map]
    apply List.map_congr_left
    intro it _
    exact updItem_idem i (bodyName (parseBody rb)) (bodyValue (parseBody rb)) it
  rw [handleApi_put segs rb st none i hid, h1]
  rw [handleApi_put segs rb
      ⟨st.db.map (updItem i (bodyName (parseBody rb)) (bodyValue (parseBody rb))), st.nextId⟩
      none i hid, h2]
  constructor
  · simp [updItem_idem]
  · simp [hmapmap]

/-- Claim C9 witness: repeating a concrete PUT on a one-row table returns
the same 200 response and the same table. -/
theorem put_idempotent_witness :
    (handleApi ⟨"PUT", ["api","items","5"],
        RawBody.wellFormed (Json.obj [("name", Json.str "x"), ("value", Json.num 2)])⟩
      (handleApi ⟨"PUT", ["api","items","5"],
        RawBody.wellFormed (Json.obj [("name", Json.str "x"), ("value", Json.num 2)])⟩
        ⟨[Item.mk 5 "a" 0], 6⟩ none).2.1 none).1
      = (handleApi ⟨"PUT", ["api","items","5"],
          RawBody.wellFormed (Json.obj [("name", Json.str "x"), ("value", Json.num 2)])⟩
          ⟨[Item.mk 5 "a" 0], 6⟩ none).1 ∧
    (handleApi ⟨"PUT", ["api","items","5"],
        RawBody.wellFormed (Json.obj [("name", Json.str "x"), ("value", Json.num 2)])⟩
      (handleApi ⟨"PUT", ["api","items","5"],
        RawBody.wellFormed (Json.obj [("name", Json.str "x"), ("value", Json.num 2)])⟩
        ⟨[Item.mk 5 "a" 0], 6⟩ none).2.1 none).2.1
      = (handleApi ⟨"PUT", ["api","items","5"],
          RawBody.wellFormed (Json.obj [("name", Json.str "x"), ("value", Json.num 2)])⟩
          ⟨[Item.mk 5 "a" 0], 6⟩ none).2.1 :=
  put_idempotent ["api","items","5"]
    (RawBody.wellFormed (Json.obj [("name", Json.str "x"), ("value", Json.num 2)]))
    ⟨[Item.mk 5 "a" 0], 6⟩ 5 rfl rfl (by decide)

/-- Claim C10: a body that parses successfully to a JS-falsy JSON value
(`0`, `false`, `""` or `null`) is, on the POST and PUT routes, rejected by
`validateItem` with "Body required" and answered with 400 — exactly the
response an absent or unparseable body gets. -/
theorem falsy_400 (method : String) (segs : List String) (j : Json)
    (st : DbState) (fail : Option String)
    (hroute : (method = "POST" ∧ segs.length = 2) ∨ (method = "PUT" ∧ parseId segs ≠ none))
    (hfalsy : jsFalsy j = true) :
    parseBody (RawBody.wellFormed j) = j ∧
    validateItem j = some "Body required" ∧
    handleApi ⟨method, segs, RawBody.wellFormed j⟩ st fail = (badRequest "Body required", st, []) ∧
    handleApi ⟨method, segs, RawBody.wellFormed j⟩ st fail
      = handleApi ⟨method, segs, RawBody.noBody⟩ st fail := by
  have hv : validateItem j = some "Body required" := by simp [validateItem, hfalsy]
  have hv0 : validateItem Json.null = some "Body required" := rfl
  rcases hroute with ⟨hm, hlen⟩ | ⟨hm, hid⟩
  · subst hm
    rw [handleApi_post segs (RawBody.wellFormed j) st fail hlen,
        handleApi_post segs RawBody.noBody st fail hlen]
    refine ⟨rfl, hv, ?_, ?_⟩
    · show createItem j st fail = _
      simp [createItem, hv]
    · show createItem j st fail = createItem Json.null st fail
      simp [createItem, hv, hv0]
  · subst hm
    obtain ⟨i, hi⟩ := Option.ne_none_iff_exists'.mp hid
    rw [handleApi_put segs (RawBody.wellFormed j) st fail i hi,
        handleApi_put segs RawBody.noBody st fail i hi]
    refine ⟨rfl, hv, ?_, ?_⟩
    · show updateItem i j st fail = _
      simp [updateItem, hv]
    · show updateItem i j st fail = updateItem i Json.null st fail
      simp [updateItem, hv, hv0]

/-- Claim C10 witness: the JSON text `false` parses fine yet gets the same
400 "Body required" as an absent body. -/
theorem falsy_400_witness :
    parseBody (RawBody.wellFormed (Json.bool false)) = Json.bool false ∧
    validateItem (Json.bool false) = some "Body required" ∧
    handleApi ⟨"POST", ["api","items"], RawBody.wellFormed (Json.bool false)⟩ ⟨[], 1⟩ none
      = (badRequest "Body required", ⟨[], 1⟩, []) ∧
    handleApi ⟨"POST", ["api","items"], RawBody.wellFormed (Json.bool false)⟩ ⟨[], 1⟩ none
      = handleApi ⟨"POST", ["api","items"], RawBody.noBody⟩ ⟨[], 1⟩ none :=
  falsy_400 "POST" ["api","items"] (Json.bool false) ⟨[], 1⟩ none (Or.inl ⟨rfl, rfl⟩) rfl
